import Mathlib

/-!
Shallow embedding of the `qanik` snowflake-id generator (src/src/lib.rs)
and proofs of the specification claims about it.

Machine integers are modelled as `Nat` with explicit `% 2 ^ w` at the
points where Rust's fixed-width semantics can differ from unbounded
arithmetic (the `fetch_add` on the `AtomicU64` counter, the value-bit
truncation of `<<`, and the `as u64` cast).  Panics (`expect` on the
clock read, and the checked-arithmetic underflow of
`timestamp - EPOCH_START` when the clock reports a time before the
epoch) are modelled as `Except.error`.  The wall-clock read, an effect,
is passed in as an explicit `Option Nat` argument (`none` = the clock
read failed, `some ts` = the clock reported `ts` milliseconds since the
Unix epoch).
-/

deriving instance DecidableEq for Except

namespace Qanik

/-- Mirrors `pub const EPOCH_START: u128 = 1119657600000;` (2005-06-25). -/
def EPOCH_START : Nat := 1119657600000

/-- Mirrors `pub const DATACENTER_ID_BITS: u32 = 3;`. -/
def DATACENTER_ID_BITS : Nat := 3

/-- Mirrors `pub const MACHINE_ID_BITS: u32 = 7;`. -/
def MACHINE_ID_BITS : Nat := 7

/-- Mirrors `pub const SEQUENCE_BITS: u32 = 12;`. -/
def SEQUENCE_BITS : Nat := 12

/-- Mirrors `pub const MAX_DATACENTER_ID: u64 = (1 << DATACENTER_ID_BITS) - 1;`. -/
def MAX_DATACENTER_ID : Nat := (1 <<< DATACENTER_ID_BITS) - 1

/-- Mirrors `pub const MAX_MACHINE_ID: u64 = (1 << MACHINE_ID_BITS) - 1;`. -/
def MAX_MACHINE_ID : Nat := (1 <<< MACHINE_ID_BITS) - 1

/-- Mirrors `pub const MAX_SEQUENCE: u64 = (1 << SEQUENCE_BITS) - 1;`. -/
def MAX_SEQUENCE : Nat := (1 <<< SEQUENCE_BITS) - 1

/-- Modulus of Rust's `u64` type. -/
def U64_SIZE : Nat := 2 ^ 64

/-- Modulus of Rust's `u128` type. -/
def U128_SIZE : Nat := 2 ^ 128

/-- Mirrors `pub struct SnowFlake`.  The `AtomicU64` sequence counter is a
plain `Nat` here because the claims are settled over the sequential
(single-thread) step relation of the code. -/
structure SnowFlake where
  datacenter_id : Nat
  machine_id : Nat
  sequence : Nat
deriving Repr, DecidableEq

/-- Error message built by `anyhow!("Datacenter id must be less than {}", MAX_DATACENTER_ID)`. -/
def datacenterIdError : String :=
  "Datacenter id must be less than " ++ toString MAX_DATACENTER_ID

/-- Error message built by `anyhow!("Machine id must be less than {}", MAX_MACHINE_ID)`. -/
def machineIdError : String :=
  "Machine id must be less than " ++ toString MAX_MACHINE_ID

/-- Error message of the `expect("Time went to heck!")` panic on a failed
clock read. -/
def clockReadError : String := "Time went to heck!"

/-- Error message of the checked-subtraction underflow panic raised by
`timestamp - EPOCH_START` when the clock reports a time before the epoch. -/
def epochUnderflowError : String := "attempt to subtract with overflow"

/-- Mirrors `SnowFlake::new`: validate the two ids, then build the struct
with the sequence counter initialized to `AtomicU64::new(1)`. -/
def SnowFlake.new (datacenter_id machine_id : Nat) : Except String SnowFlake :=
  if datacenter_id > MAX_DATACENTER_ID then
    Except.error datacenterIdError
  else if machine_id > MAX_MACHINE_ID then
    Except.error machineIdError
  else
    Except.ok { datacenter_id := datacenter_id, machine_id := machine_id, sequence := 1 }

/-- Sequential effect of one `generate_id` call on the sequence counter:
`fetch_add(1, ...)` (wrapping at `2 ^ 64`) followed by
`compare_exchange(MAX_SEQUENCE, 1, ...)`, which resets the counter to `1`
exactly when its post-increment value equals `MAX_SEQUENCE`. -/
def seqNext (s : Nat) : Nat :=
  let s1 := (s + 1) % U64_SIZE
  if s1 = MAX_SEQUENCE then 1 else s1

/-- The guard of the wraparound branch of `generate_id`: the thread sleeps
for 1 ms exactly when the pre-increment value `current` (the counter value
at entry) equals `MAX_SEQUENCE`. -/
def SnowFlake.sleeps (s : SnowFlake) : Bool := s.sequence == MAX_SEQUENCE

/-- Mirrors `SnowFlake::generate_id` run sequentially.  `clock` is the
wall-clock read (`u128` milliseconds since the Unix epoch), `none` when the
read fails.  Returns the generated id together with the updated generator
state, or the panic message.  The id composition mirrors
`((timestamp - EPOCH_START) << (DATACENTER_ID_BITS + MACHINE_ID_BITS + SEQUENCE_BITS)) as u64`
(a `u128` shift truncated at `2 ^ 128`, then a cast truncating at `2 ^ 64`)
OR-ed with the two identity fields shifted into place and with `current`. -/
def SnowFlake.generate_id (s : SnowFlake) (clock : Option Nat) :
    Except String (Nat × SnowFlake) :=
  let current := s.sequence
  let seqAfter := seqNext s.sequence
  match clock with
  | none => Except.error clockReadError
  | some timestamp =>
    if timestamp < EPOCH_START then
      Except.error epochUnderflowError
    else
      let idBase : Nat :=
        (((timestamp - EPOCH_START) <<<
            (DATACENTER_ID_BITS + MACHINE_ID_BITS + SEQUENCE_BITS)) % U128_SIZE) % U64_SIZE
      let id : Nat := idBase
        ||| ((s.datacenter_id <<< (MACHINE_ID_BITS + SEQUENCE_BITS)) % U64_SIZE)
        ||| ((s.machine_id <<< SEQUENCE_BITS) % U64_SIZE)
        ||| current
      Except.ok (id, { s with sequence := seqAfter })

/-- Pre-increment values (`current`) captured by `n` successive sequential
`generate_id` calls, starting from counter value `s`. -/
def seqTrace (s : Nat) : Nat → List Nat
  | 0 => []
  | n + 1 => s :: seqTrace (seqNext s) n

/-! Helper lemmas shared by the claim theorems. -/

/-- A value with its low `k` bits clear OR-ed with a value below `2 ^ k` is
their sum. -/
lemma or_eq_add_of_lt (a b k : Nat) (hb : b < 2 ^ k) : a * 2 ^ k ||| b = a * 2 ^ k + b := by
  rw [mul_comm]
  exact (Nat.mul_add_lt_is_or hb a).symm

/-- The sequence step keeps the counter inside `[1, MAX_SEQUENCE - 1]`. -/
lemma seqNext_bounds {s : Nat} (h1 : 1 ≤ s) (h2 : s ≤ MAX_SEQUENCE - 1) :
    1 ≤ seqNext s ∧ seqNext s ≤ MAX_SEQUENCE - 1 := by
  have hm : MAX_SEQUENCE = 4095 := by decide
  have hu : U64_SIZE = 18446744073709551616 := by norm_num [U64_SIZE]
  unfold seqNext
  rw [hm] at h2 ⊢
  have hlt : s + 1 < U64_SIZE := by omega
  simp only [Nat.mod_eq_of_lt hlt]
  split <;> omega

/-- Every pre-increment value of a sequential run starting inside
`[1, MAX_SEQUENCE - 1]` stays inside `[1, MAX_SEQUENCE - 1]`. -/
lemma seqTrace_bounds : ∀ (n s : Nat), 1 ≤ s → s ≤ MAX_SEQUENCE - 1 →
    ∀ c ∈ seqTrace s n, 1 ≤ c ∧ c ≤ MAX_SEQUENCE - 1
  | 0, s, _, _, c, hc => by simp [seqTrace] at hc
  | n + 1, s, h1, h2, c, hc => by
    rw [seqTrace] at hc
    rcases List.mem_cons.mp hc with rfl | hc
    · exact ⟨h1, h2⟩
    · exact seqTrace_bounds n (seqNext s) (seqNext_bounds h1 h2).1
        (seqNext_bounds h1 h2).2 c hc

/-- The bit-packing of `generate_id`, rewritten as plain arithmetic: the
timestamp delta (truncated to 42 bits by the `as u64` cast) lands in the
top bits, and the three low fields occupy disjoint bit ranges. -/
lemma pack_eq (t dc m c : Nat) (hdc : dc ≤ 7) (hmm : m ≤ 127) (hc : c ≤ 4095) :
    ((t <<< (DATACENTER_ID_BITS + MACHINE_ID_BITS + SEQUENCE_BITS) % U128_SIZE) % U64_SIZE)
        ||| (dc <<< (MACHINE_ID_BITS + SEQUENCE_BITS) % U64_SIZE)
        ||| (m <<< SEQUENCE_BITS % U64_SIZE) ||| c
      = t % 2 ^ 42 * 2 ^ 22 + dc * 2 ^ 19 + m * 2 ^ 12 + c := by
  have hshow : DATACENTER_ID_BITS + MACHINE_ID_BITS + SEQUENCE_BITS = 22 := by decide
  have hshow2 : MACHINE_ID_BITS + SEQUENCE_BITS = 19 := by decide
  have hshow3 : SEQUENCE_BITS = 12 := by decide
  rw [hshow, hshow2, hshow3, Nat.shiftLeft_eq, Nat.shiftLeft_eq, Nat.shiftLeft_eq]
  have hdvd : U64_SIZE ∣ U128_SIZE := ⟨2 ^ 64, by norm_num [U64_SIZE, U128_SIZE]⟩
  rw [Nat.mod_mod_of_dvd _ hdvd]
  have h64 : U64_SIZE = 2 ^ 42 * 2 ^ 22 := by norm_num [U64_SIZE]
  have hb1 : dc * 2 ^ 19 < 2 ^ 22 :=
    Nat.lt_of_le_of_lt (Nat.mul_le_mul_right _ hdc) (by norm_num)
  have hb2 : m * 2 ^ 12 < 2 ^ 19 :=
    Nat.lt_of_le_of_lt (Nat.mul_le_mul_right _ hmm) (by norm_num)
  have hb3 : c < 2 ^ 12 := Nat.lt_of_le_of_lt hc (by norm_num)
  have hdc64 : dc * 2 ^ 19 % U64_SIZE = dc * 2 ^ 19 :=
    Nat.mod_eq_of_lt (Nat.lt_of_lt_of_le hb1 (by norm_num [U64_SIZE]))
  have hm64 : m * 2 ^ 12 % U64_SIZE = m * 2 ^ 12 :=
    Nat.mod_eq_of_lt (Nat.lt_of_lt_of_le hb2 (by norm_num [U64_SIZE]))
  rw [hdc64, hm64, h64, Nat.mul_mod_mul_right]
  rw [or_eq_add_of_lt _ _ _ hb1]
  have e1 : t % 2 ^ 42 * 2 ^ 22 + dc * 2 ^ 19 = (t % 2 ^ 42 * 2 ^ 3 + dc) * 2 ^ 19 := by ring
  rw [e1, or_eq_add_of_lt _ _ _ hb2]
  have e2 : (t % 2 ^ 42 * 2 ^ 3 + dc) * 2 ^ 19 + m * 2 ^ 12
      = ((t % 2 ^ 42 * 2 ^ 3 + dc) * 2 ^ 7 + m) * 2 ^ 12 := by ring
  rw [e2, or_eq_add_of_lt _ _ _ hb3]

/-- A successful `generate_id` call on an in-range generator, in closed
arithmetic form. -/
lemma generate_id_closed_form (s : SnowFlake) (ts : Nat) (hts : EPOCH_START ≤ ts)
    (hdc : s.datacenter_id ≤ MAX_DATACENTER_ID) (hm : s.machine_id ≤ MAX_MACHINE_ID)
    (hsq : s.sequence ≤ MAX_SEQUENCE) :
    s.generate_id (some ts) =
      Except.ok ((ts - EPOCH_START) % 2 ^ 42 * 2 ^ 22 + s.datacenter_id * 2 ^ 19
          + s.machine_id * 2 ^ 12 + s.sequence,
        { s with sequence := seqNext s.sequence }) := by
  have hdc7 : s.datacenter_id ≤ 7 := by
    have h : MAX_DATACENTER_ID = 7 := by decide
    omega
  have hm127 : s.machine_id ≤ 127 := by
    have h : MAX_MACHINE_ID = 127 := by decide
    omega
  have hsq4095 : s.sequence ≤ 4095 := by
    have h : MAX_SEQUENCE = 4095 := by decide
    omega
  simp only [SnowFlake.generate_id]
  rw [if_neg (Nat.not_lt.mpr hts)]
  rw [pack_eq (ts - EPOCH_START) s.datacenter_id s.machine_id s.sequence hdc7 hm127 hsq4095]

/-- Masking with `4095 = 2 ^ 12 - 1` is reduction modulo `2 ^ 12`. -/
lemma and_4095 (x : Nat) : x &&& 4095 = x % 4096 := by
  have h := Nat.and_pow_two_sub_one_eq_mod x 12
  norm_num at h
  exact h

/-- Masking with `127 = 2 ^ 7 - 1` is reduction modulo `2 ^ 7`. -/
lemma and_127 (x : Nat) : x &&& 127 = x % 128 := by
  have h := Nat.and_pow_two_sub_one_eq_mod x 7
  norm_num at h
  exact h

/-- Masking with `7 = 2 ^ 3 - 1` is reduction modulo `2 ^ 3`. -/
lemma and_7 (x : Nat) : x &&& 7 = x % 8 := by
  have h := Nat.and_pow_two_sub_one_eq_mod x 3
  norm_num at h
  exact h

/-! Claim theorems. -/

/-- C7: the field widths are 3 (datacenter), 7 (machine) and 12 (sequence)
bits; each maximum equals `2 ^ width - 1` (so 7, 127 and 4095); the
timestamp field width is `64 - (3 + 7 + 12) = 42` bits; and
`new(128, 0)` fails with the datacenter-too-large error since `128 > 7`. -/
theorem C7_field_constants :
    DATACENTER_ID_BITS = 3 ∧ MACHINE_ID_BITS = 7 ∧ SEQUENCE_BITS = 12 ∧
    MAX_DATACENTER_ID = 2 ^ DATACENTER_ID_BITS - 1 ∧ MAX_DATACENTER_ID = 7 ∧
    MAX_MACHINE_ID = 2 ^ MACHINE_ID_BITS - 1 ∧ MAX_MACHINE_ID = 127 ∧
    MAX_SEQUENCE = 2 ^ SEQUENCE_BITS - 1 ∧ MAX_SEQUENCE = 4095 ∧
    64 - (DATACENTER_ID_BITS + MACHINE_ID_BITS + SEQUENCE_BITS) = 42 ∧
    128 > MAX_DATACENTER_ID ∧
    SnowFlake.new 128 0 = Except.error datacenterIdError := by
  decide

/-- C3: `new dc m` succeeds exactly when `dc ≤ MAX_DATACENTER_ID` and
`m ≤ MAX_MACHINE_ID`; on success the identity fields equal the inputs and
the sequence counter is 1; on failure the error is the datacenter-specific
message when the datacenter id is out of range, and otherwise the
machine-specific message, and the two messages are distinct. -/
theorem C3_new_validation (dc m : Nat) :
    ((∃ g, SnowFlake.new dc m = Except.ok g) ↔
      dc ≤ MAX_DATACENTER_ID ∧ m ≤ MAX_MACHINE_ID) ∧
    (∀ g, SnowFlake.new dc m = Except.ok g →
      g.datacenter_id = dc ∧ g.machine_id = m ∧ g.sequence = 1) ∧
    (dc > MAX_DATACENTER_ID → SnowFlake.new dc m = Except.error datacenterIdError) ∧
    (dc ≤ MAX_DATACENTER_ID → m > MAX_MACHINE_ID →
      SnowFlake.new dc m = Except.error machineIdError) ∧
    datacenterIdError ≠ machineIdError := by
  by_cases h1 : dc > MAX_DATACENTER_ID
  · refine ⟨?_, ?_, fun _ => ?_, fun hle _ => absurd h1 (by omega), by decide⟩
    · simp only [SnowFlake.new, if_pos h1]
      constructor
      · rintro ⟨g, hg⟩
        cases hg
      · rintro ⟨ha, _⟩
        omega
    · intro g hg
      simp only [SnowFlake.new, if_pos h1] at hg
      cases hg
    · simp only [SnowFlake.new, if_pos h1]
  · by_cases h2 : m > MAX_MACHINE_ID
    · refine ⟨?_, ?_, fun hg => absurd hg h1, fun _ _ => ?_, by decide⟩
      · simp only [SnowFlake.new, if_neg h1, if_pos h2]
        constructor
        · rintro ⟨g, hg⟩
          cases hg
        · rintro ⟨_, hb⟩
          omega
      · intro g hg
        simp only [SnowFlake.new, if_neg h1, if_pos h2] at hg
        cases hg
      · simp only [SnowFlake.new, if_neg h1, if_pos h2]
    · refine ⟨?_, ?_, fun hg => absurd hg h1, fun _ hg => absurd hg h2, by decide⟩
      · simp only [SnowFlake.new, if_neg h1, if_neg h2]
        constructor
        · intro _
          omega
        · intro _
          exact ⟨_, rfl⟩
      · intro g hg
        simp only [SnowFlake.new, if_neg h1, if_neg h2] at hg
        cases hg
        exact ⟨rfl, rfl, rfl⟩

/-- Witness for C3 at the concrete input `(1, 1)`. -/
theorem C3_new_validation_witness :
    (SnowFlake.mk 1 1 1).datacenter_id = 1 ∧ (SnowFlake.mk 1 1 1).machine_id = 1 ∧
    (SnowFlake.mk 1 1 1).sequence = 1 :=
  (C3_new_validation 1 1).2.1 (SnowFlake.mk 1 1 1) (by decide)

/-- C8: every successful `generate_id` call leaves `datacenter_id` and
`machine_id` unchanged; only the sequence counter is mutated. -/
theorem C8_identity_fields_frame (s : SnowFlake) (clock : Option Nat) (id : Nat)
    (s' : SnowFlake) (h : s.generate_id clock = Except.ok (id, s')) :
    s'.datacenter_id = s.datacenter_id ∧ s'.machine_id = s.machine_id := by
  cases clock with
  | none => cases h
  | some ts =>
    simp only [SnowFlake.generate_id] at h
    split at h
    · cases h
    · injection h with h1
      injection h1 with ha hb
      rw [← hb]
      exact ⟨rfl, rfl⟩

/-- Witness for C8 at a concrete run. -/
theorem C8_identity_fields_frame_witness :
    (SnowFlake.mk 1 1 2).datacenter_id = (SnowFlake.mk 1 1 1).datacenter_id ∧
    (SnowFlake.mk 1 1 2).machine_id = (SnowFlake.mk 1 1 1).machine_id :=
  C8_identity_fields_frame (SnowFlake.mk 1 1 1) (some EPOCH_START) 528385
    (SnowFlake.mk 1 1 2) (by decide)

/-- C4: when the wall-clock read fails, or when the clock reports a time
before `EPOCH_START`, `generate_id` is a hard failure for that call: it
returns the corresponding panic as an error and never an id. -/
theorem C4_clock_failure_is_fatal (s : SnowFlake) :
    (s.generate_id none = Except.error clockReadError ∧
      ∀ r, s.generate_id none ≠ Except.ok r) ∧
    ∀ ts, ts < EPOCH_START →
      s.generate_id (some ts) = Except.error epochUnderflowError ∧
      ∀ r, s.generate_id (some ts) ≠ Except.ok r := by
  refine ⟨⟨rfl, fun r hr => by cases hr⟩, fun ts hts => ?_⟩
  have h : s.generate_id (some ts) = Except.error epochUnderflowError := by
    simp only [SnowFlake.generate_id]
    rw [if_pos hts]
  refine ⟨h, fun r hr => ?_⟩
  rw [h] at hr
  cases hr

/-- Witness for C4 at the concrete clock reading 0 (before the epoch). -/
theorem C4_clock_failure_is_fatal_witness :
    (SnowFlake.mk 1 1 1).generate_id (some 0) = Except.error epochUnderflowError :=
  ((C4_clock_failure_is_fatal (SnowFlake.mk 1 1 1)).2 0 (by decide)).1

/-- C5: for every id generated by an in-range generator with a timestamp
delta fitting the 42-bit field, the inverse shifts and masks recover the
datacenter id, the machine id, the sequence value drawn by the call, and
the timestamp delta. -/
theorem C5_roundtrip (s : SnowFlake) (ts id : Nat) (s' : SnowFlake)
    (hdc : s.datacenter_id ≤ MAX_DATACENTER_ID) (hm : s.machine_id ≤ MAX_MACHINE_ID)
    (hsq : s.sequence ≤ MAX_SEQUENCE)
    (hts : EPOCH_START ≤ ts) (hfit : ts - EPOCH_START < 2 ^ 42)
    (h : s.generate_id (some ts) = Except.ok (id, s')) :
    (id >>> 19) &&& 7 = s.datacenter_id ∧
    (id >>> 12) &&& 127 = s.machine_id ∧
    id &&& 4095 = s.sequence ∧
    id >>> 22 = ts - EPOCH_START := by
  rw [generate_id_closed_form s ts hts hdc hm hsq] at h
  injection h with h1
  injection h1 with ha hb
  subst ha
  have hdc7 : s.datacenter_id ≤ 7 := by
    have hx : MAX_DATACENTER_ID = 7 := by decide
    omega
  have hm127 : s.machine_id ≤ 127 := by
    have hx : MAX_MACHINE_ID = 127 := by decide
    omega
  have hsq4095 : s.sequence ≤ 4095 := by
    have hx : MAX_SEQUENCE = 4095 := by decide
    omega
  rw [Nat.mod_eq_of_lt hfit, Nat.shiftRight_eq_div_pow, Nat.shiftRight_eq_div_pow,
    Nat.shiftRight_eq_div_pow, and_7, and_127, and_4095]
  refine ⟨?_, ?_, ?_, ?_⟩ <;> omega

/-- Witness for C5 at a concrete run 5 ms after the epoch. -/
theorem C5_roundtrip_witness :
    (21499905 >>> 19) &&& 7 = (SnowFlake.mk 1 1 1).datacenter_id ∧
    (21499905 >>> 12) &&& 127 = (SnowFlake.mk 1 1 1).machine_id ∧
    21499905 &&& 4095 = (SnowFlake.mk 1 1 1).sequence ∧
    21499905 >>> 22 = EPOCH_START + 5 - EPOCH_START :=
  C5_roundtrip (SnowFlake.mk 1 1 1) (EPOCH_START + 5) 21499905 (SnowFlake.mk 1 1 2)
    (by decide) (by decide) (by decide) (Nat.le_add_right _ _) (by omega) (by decide)

/-- C6: `new 1 1` succeeds, and the first `generate_id` call on the fresh
generator returns an id whose low 12 bits are 1 (sequence), whose next 7
bits are 1 (machine id) and whose next 3 bits are 1 (datacenter id). -/
theorem C6_first_id_fields (ts : Nat) (hts : EPOCH_START ≤ ts) :
    SnowFlake.new 1 1 = Except.ok (SnowFlake.mk 1 1 1) ∧
    ∀ id g', (SnowFlake.mk 1 1 1).generate_id (some ts) = Except.ok (id, g') →
      id &&& 4095 = 1 ∧ (id >>> 12) &&& 127 = 1 ∧ (id >>> 19) &&& 7 = 1 := by
  refine ⟨by decide, fun id g' h => ?_⟩
  rw [generate_id_closed_form _ ts hts (by decide) (by decide) (by decide)] at h
  injection h with h1
  injection h1 with ha hb
  subst ha
  dsimp only
  rw [Nat.shiftRight_eq_div_pow, Nat.shiftRight_eq_div_pow, and_7, and_127, and_4095]
  refine ⟨?_, ?_, ?_⟩ <;> omega

/-- Witness for C6 at the concrete clock reading `EPOCH_START`. -/
theorem C6_first_id_fields_witness :
    SnowFlake.new 1 1 = Except.ok (SnowFlake.mk 1 1 1) ∧
    (528385 &&& 4095 = 1 ∧ (528385 >>> 12) &&& 127 = 1 ∧ (528385 >>> 19) &&& 7 = 1) :=
  ⟨(C6_first_id_fields EPOCH_START (Nat.le_refl _)).1,
   (C6_first_id_fields EPOCH_START (Nat.le_refl _)).2 528385 (SnowFlake.mk 1 1 2) (by decide)⟩

/-- C2: the sequence counter starts at 1, stays in `[1, MAX_SEQUENCE]`
(never 0) along every sequential run from a fresh generator, and the
sequence field of every id generated from an in-range state lies in
`[1, MAX_SEQUENCE]` and is never 0. -/
theorem C2_sequence_range :
    (∀ dc m g, SnowFlake.new dc m = Except.ok g → g.sequence = 1) ∧
    (∀ n c, c ∈ seqTrace 1 n → 1 ≤ c ∧ c ≤ MAX_SEQUENCE ∧ c ≠ 0) ∧
    (∀ (s : SnowFlake) (clock : Option Nat) (id : Nat) (s' : SnowFlake),
      1 ≤ s.sequence → s.sequence ≤ MAX_SEQUENCE →
      s.datacenter_id ≤ MAX_DATACENTER_ID → s.machine_id ≤ MAX_MACHINE_ID →
      s.generate_id clock = Except.ok (id, s') →
      1 ≤ id &&& 4095 ∧ id &&& 4095 ≤ MAX_SEQUENCE ∧ id &&& 4095 ≠ 0) := by
  have hmax : MAX_SEQUENCE = 4095 := by decide
  refine ⟨?_, ?_, ?_⟩
  · intro dc m g hg
    simp only [SnowFlake.new] at hg
    split at hg
    · cases hg
    · split at hg
      · cases hg
      · cases hg
        rfl
  · intro n c hc
    have hb := seqTrace_bounds n 1 (by decide) (by decide) c hc
    omega
  · intro s clock id s' h1 h2 hdc hm h
    cases clock with
    | none => cases h
    | some ts =>
      by_cases hts : ts < EPOCH_START
      · simp only [SnowFlake.generate_id] at h
        rw [if_pos hts] at h
        cases h
      · rw [generate_id_closed_form s ts (by omega) hdc hm h2] at h
        injection h with hp
        injection hp with ha hb
        subst ha
        have hdc7 : s.datacenter_id ≤ 7 := by
          have hx : MAX_DATACENTER_ID = 7 := by decide
          omega
        have hm127 : s.machine_id ≤ 127 := by
          have hx : MAX_MACHINE_ID = 127 := by decide
          omega
        rw [and_4095]
        omega

/-- Witness for C2 at a concrete call on the fresh `(1, 1)` generator. -/
theorem C2_sequence_range_witness :
    1 ≤ 528385 &&& 4095 ∧ 528385 &&& 4095 ≤ MAX_SEQUENCE ∧ 528385 &&& 4095 ≠ 0 :=
  C2_sequence_range.2.2 (SnowFlake.mk 1 1 1) (some EPOCH_START) 528385 (SnowFlake.mk 1 1 2)
    (by decide) (by decide) (by decide) (by decide) (by decide)

/-- C9: sequentially the pre-increment value never equals `MAX_SEQUENCE`:
every run from a fresh generator draws values in `[1, MAX_SEQUENCE - 1]`;
the call that draws `MAX_SEQUENCE - 1` resets the counter to 1 via the
compare-and-swap; the sleep guard is false whenever the counter is below
`MAX_SEQUENCE`; and the sequence field of every id generated from a
reachable state lies in `[1, MAX_SEQUENCE - 1]`. -/
theorem C9_sequential_never_sleeps :
    (∀ n c, c ∈ seqTrace 1 n → (1 ≤ c ∧ c ≤ MAX_SEQUENCE - 1) ∧ c ≠ MAX_SEQUENCE) ∧
    seqNext (MAX_SEQUENCE - 1) = 1 ∧
    (∀ g : SnowFlake, g.sequence ≤ MAX_SEQUENCE - 1 → g.sleeps = false) ∧
    (∀ (s : SnowFlake) (clock : Option Nat) (id : Nat) (s' : SnowFlake),
      1 ≤ s.sequence → s.sequence ≤ MAX_SEQUENCE - 1 →
      s.datacenter_id ≤ MAX_DATACENTER_ID → s.machine_id ≤ MAX_MACHINE_ID →
      s.generate_id clock = Except.ok (id, s') →
      1 ≤ id &&& 4095 ∧ id &&& 4095 ≤ MAX_SEQUENCE - 1) := by
  have hmax : MAX_SEQUENCE = 4095 := by decide
  refine ⟨?_, by decide, ?_, ?_⟩
  · intro n c hc
    have hb := seqTrace_bounds n 1 (by decide) (by decide) c hc
    exact ⟨hb, by omega⟩
  · intro g hg
    simp only [SnowFlake.sleeps, beq_eq_false_iff_ne]
    omega
  · intro s clock id s' h1 h2 hdc hm h
    cases clock with
    | none => cases h
    | some ts =>
      by_cases hts : ts < EPOCH_START
      · simp only [SnowFlake.generate_id] at h
        rw [if_pos hts] at h
        cases h
      · rw [generate_id_closed_form s ts (by omega) hdc hm (by omega)] at h
        injection h with hp
        injection hp with ha hb
        subst ha
        have hdc7 : s.datacenter_id ≤ 7 := by
          have hx : MAX_DATACENTER_ID = 7 := by decide
          omega
        have hm127 : s.machine_id ≤ 127 := by
          have hx : MAX_MACHINE_ID = 127 := by decide
          omega
        rw [and_4095]
        omega

/-- Witness for C9 at a concrete call on the fresh `(1, 1)` generator. -/
theorem C9_sequential_never_sleeps_witness :
    1 ≤ 528385 &&& 4095 ∧ 528385 &&& 4095 ≤ MAX_SEQUENCE - 1 :=
  C9_sequential_never_sleeps.2.2.2 (SnowFlake.mk 1 1 1) (some EPOCH_START) 528385
    (SnowFlake.mk 1 1 2) (by decide) (by decide) (by decide) (by decide) (by decide)

/-- C1 counterexample: on a freshly constructed generator, none of
`MAX_SEQUENCE` successive sequential `generate_id` calls captures a
pre-increment value equal to `MAX_SEQUENCE`, so the wraparound sleep
branch executes in none of them. -/
theorem C1_counterexample :
    SnowFlake.new 1 1 = Except.ok (SnowFlake.mk 1 1 1) ∧
    (SnowFlake.mk 1 1 1).sequence = 1 ∧
    (seqTrace 1 MAX_SEQUENCE).any (fun c => c == MAX_SEQUENCE) = false := by
  refine ⟨by decide, rfl, ?_⟩
  rw [List.any_eq_false]
  intro c hc
  have hb := seqTrace_bounds MAX_SEQUENCE 1 (by decide) (by decide) c hc
  have hmax : MAX_SEQUENCE = 4095 := by decide
  simp only [beq_iff_eq]
  omega

/-- C1 amended: calling `generate_id` `MAX_SEQUENCE` times in rapid
succession from a single thread on a fresh generator never takes the
wraparound branch: every captured pre-increment value lies in
`[1, MAX_SEQUENCE - 1]`, so the 1 ms sleep executes in none of the calls. -/
theorem C1_amended_no_sleep_in_wrap_cycle (g : SnowFlake)
    (hg : SnowFlake.new 1 1 = Except.ok g) :
    ∀ c ∈ seqTrace g.sequence MAX_SEQUENCE,
      (1 ≤ c ∧ c ≤ MAX_SEQUENCE - 1) ∧
      (SnowFlake.mk g.datacenter_id g.machine_id c).sleeps = false := by
  have hg' : g = SnowFlake.mk 1 1 1 := by
    rw [show SnowFlake.new 1 1 = Except.ok (SnowFlake.mk 1 1 1) from by decide] at hg
    injection hg with h
    exact h.symm
  subst hg'
  intro c hc
  have hb := seqTrace_bounds MAX_SEQUENCE 1 (by decide) (by decide) c hc
  have hmax : MAX_SEQUENCE = 4095 := by decide
  refine ⟨hb, ?_⟩
  simp only [SnowFlake.sleeps, beq_eq_false_iff_ne]
  omega

/-- Witness for the amended C1 at the first call of the cycle. -/
theorem C1_amended_no_sleep_in_wrap_cycle_witness :
    (1 ≤ 1 ∧ 1 ≤ MAX_SEQUENCE - 1) ∧
    (SnowFlake.mk (SnowFlake.mk 1 1 1).datacenter_id (SnowFlake.mk 1 1 1).machine_id 1).sleeps
      = false :=
  C1_amended_no_sleep_in_wrap_cycle (SnowFlake.mk 1 1 1) (by decide) 1 (by decide)

/-- C10: `generate_id` performs no overflow check on the timestamp field:
when the delta `ts - EPOCH_START` is `2 ^ 42` or larger the call still
succeeds, and the id's timestamp field holds the delta reduced modulo
`2 ^ 42`, which differs from the true delta; no error is reported. -/
theorem C10_timestamp_truncates (s : SnowFlake) (ts : Nat)
    (hdc : s.datacenter_id ≤ MAX_DATACENTER_ID) (hm : s.machine_id ≤ MAX_MACHINE_ID)
    (hsq : s.sequence ≤ MAX_SEQUENCE)
    (hbig : EPOCH_START + 2 ^ 42 ≤ ts) :
    (∃ r, s.generate_id (some ts) = Except.ok r) ∧
    (∀ id s', s.generate_id (some ts) = Except.ok (id, s') →
      id >>> 22 = (ts - EPOCH_START) % 2 ^ 42) ∧
    (ts - EPOCH_START) % 2 ^ 42 ≠ ts - EPOCH_START := by
  have hts : EPOCH_START ≤ ts := by omega
  have hcf := generate_id_closed_form s ts hts hdc hm hsq
  have hT : (ts - EPOCH_START) % 2 ^ 42 < 2 ^ 42 := Nat.mod_lt _ (by norm_num)
  refine ⟨⟨_, hcf⟩, fun id s' h => ?_, by omega⟩
  rw [hcf] at h
  injection h with hp
  injection hp with ha hb
  subst ha
  have hdc7 : s.datacenter_id ≤ 7 := by
    have hx : MAX_DATACENTER_ID = 7 := by decide
    omega
  have hm127 : s.machine_id ≤ 127 := by
    have hx : MAX_MACHINE_ID = 127 := by decide
    omega
  have hsq4095 : s.sequence ≤ 4095 := by
    have hx : MAX_SEQUENCE = 4095 := by decide
    omega
  rw [Nat.shiftRight_eq_div_pow]
  omega

/-- Witness for C10 at the concrete clock reading `EPOCH_START + 2 ^ 42`. -/
theorem C10_timestamp_truncates_witness :
    528385 >>> 22 = (EPOCH_START + 2 ^ 42 - EPOCH_START) % 2 ^ 42 ∧
    (EPOCH_START + 2 ^ 42 - EPOCH_START) % 2 ^ 42 ≠ EPOCH_START + 2 ^ 42 - EPOCH_START :=
  ⟨(C10_timestamp_truncates (SnowFlake.mk 1 1 1) (EPOCH_START + 2 ^ 42) (by decide) (by decide)
      (by decide) (Nat.le_refl _)).2.1 528385 (SnowFlake.mk 1 1 2) (by decide),
   (C10_timestamp_truncates (SnowFlake.mk 1 1 1) (EPOCH_START + 2 ^ 42) (by decide) (by decide)
      (by decide) (Nat.le_refl _)).2.2⟩

end Qanik
